import Mathlib

/-!
Verification of the AxumAuth validation layer, error taxonomy and DTO
conversions, shallowly embedded from `src/dtos.rs`, `src/error.rs` and
`src/models.rs`.  Validator-derive annotations are translated as explicit
field-error-collecting functions: validation succeeds exactly when the
collected error list is empty, mirroring `validator::Validate`.
-/

namespace AxumAuth

/-- A field-level validation failure: the offending field's name paired with
the message text of the violated rule, as produced by the validator derive. -/
structure FieldError where
  field : String
  message : String
deriving Repr, DecidableEq

/-- Characters allowed in the local (user) part of an email address, from the
validator crate's EMAIL_USER_RE character class
(letters, digits, and the specials `.!#$%&'*+/=?^_\x60\x7b|\x7d~-`); the
characters apostrophe, backtick, braces and pipe are written via codepoints. -/
def isEmailUserChar (c : Char) : Bool :=
  c.isAlphanum || "!#$%&*+/=?^_.~-".toList.contains c ||
  c == Char.ofNat 39 || c == Char.ofNat 96 || c == Char.ofNat 123 ||
  c == Char.ofNat 124 || c == Char.ofNat 125

/-- Characters allowed inside a domain label: ASCII alphanumerics and `-`. -/
def isDomainLabelChar (c : Char) : Bool :=
  c.isAlphanum || c == '-'

/-- Splitting a character list at every occurrence of a separator, the
semantics of Rust's `split`: `n` separators yield `n + 1` (possibly empty)
pieces. -/
def splitOnChar (sep : Char) : List Char → List (List Char)
  | [] => [[]]
  | c :: rest =>
    let r := splitOnChar sep rest
    if c == sep then [] :: r
    else
      match r with
      | [] => [[c]]
      | piece :: others => (c :: piece) :: others

/-- A single domain label per the validator crate's EMAIL_DOMAIN_RE:
1 to 63 characters, alphanumerics or hyphens, starting and ending with an
alphanumeric. -/
def validDomainLabel (l : List Char) : Bool :=
  1 ≤ l.length && l.length ≤ 63 &&
  l.all isDomainLabelChar &&
  (match l with
   | [] => false
   | c :: _ => c.isAlphanum) &&
  (match l.reverse with
   | [] => false
   | c :: _ => c.isAlphanum)

/-- Email well-formedness, modelled from the validator crate's
`validate_email` (the function the `#[validate(email)]` attribute runs):
reject empty strings and strings without `@`; split at the last `@`;
the user part must be nonempty, at most 64 characters, all from the allowed
class; the domain part must be at most 255 characters and a dot-separated
sequence of valid labels.  The IDN-fallback and bracketed-IP-literal paths of
the crate are omitted; on ASCII inputs the behaviour coincides. -/
def validate_email (s : String) : Bool :=
  let chars := s.toList
  if chars.isEmpty then false
  else if !chars.contains '@' then false
  else
    match (splitOnChar '@' chars).reverse with
    | [] => false
    | domain :: revUser =>
      let user := List.intercalate ['@'] revUser.reverse
      1 ≤ user.length && user.length ≤ 64 && domain.length ≤ 255 &&
      user.all isEmailUserChar &&
      (splitOnChar '.' domain).all validDomainLabel

/-- Registration request payload, from `RegisterUserDto` in `src/dtos.rs`. -/
structure RegisterUserDto where
  name : String
  email : String
  password : String
  password_confirm : String
deriving Repr, DecidableEq

/-- Validation of `RegisterUserDto`, from its validator-derive attributes:
name length min 1; email length min 1 and email syntax; password length
min 6; password_confirm length min 1 and must match password. -/
def RegisterUserDto.validate (d : RegisterUserDto) : List FieldError :=
  (if d.name.length < 1 then [⟨"name", "Name is required"⟩] else []) ++
  (if d.email.length < 1 then [⟨"email", "Email is required"⟩] else []) ++
  (if validate_email d.email then [] else [⟨"email", "Email is invalid"⟩]) ++
  (if d.password.length < 6 then
    [⟨"password", "Password must be at least 6 characters"⟩] else []) ++
  (if d.password_confirm.length < 1 then
    [⟨"password_confirm", "Confirm Password is required"⟩] else []) ++
  (if d.password_confirm = d.password then []
   else [⟨"password_confirm", "passwords do not match"⟩])

/-- Claim C2: validation of a `RegisterUserDto` succeeds (returns no field
errors) if and only if the name has length at least 1, the email has length
at least 1 and is well-formed email syntax, the password has length at
least 6, and the password_confirm has length at least 1 and equals the
password as an exact string. -/
theorem registerUserDto_validate_iff (d : RegisterUserDto) :
    d.validate = [] ↔
      (1 ≤ d.name.length ∧ 1 ≤ d.email.length ∧ validate_email d.email = true ∧
       6 ≤ d.password.length ∧ 1 ≤ d.password_confirm.length ∧
       d.password_confirm = d.password) := by
  unfold RegisterUserDto.validate
  split_ifs with h1 h2 h3 h4 h5 h6 <;> simp_all
  all_goals omega

/-- Password-reset request payload, from `ResetPasswordRequestDto` in
`src/dtos.rs`. -/
structure ResetPasswordRequestDto where
  token : String
  new_password : String
  new_password_confirm : String
deriving Repr, DecidableEq

/-- Validation of `ResetPasswordRequestDto`, from its validator-derive
attributes: token length min 1; new_password length min 6;
new_password_confirm length min 6.  Note: the source carries NO must_match
attribute on new_password_confirm, although its accompanying comment says the
field must match new_password. -/
def ResetPasswordRequestDto.validate (d : ResetPasswordRequestDto) :
    List FieldError :=
  (if d.token.length < 1 then [⟨"token", "Token is required"⟩] else []) ++
  (if d.new_password.length < 6 then
    [⟨"new_password", "New password must be at least 6 characters"⟩] else []) ++
  (if d.new_password_confirm.length < 6 then
    [⟨"new_password_confirm",
      "New password confirm must be at least 6 characters"⟩] else [])

/-- Claim C1 (failing-input evaluation): the payload with token "t",
new_password "abcdef" and new_password_confirm "ghijkl" passes
`ResetPasswordRequestDto` validation with no field errors, although the
confirm differs from the new password — the equality rule the claim states
is absent from the code. -/
theorem resetPasswordRequestDto_accepts_mismatched_confirm :
    ResetPasswordRequestDto.validate ⟨"t", "abcdef", "ghijkl"⟩ = [] ∧
    ("ghijkl" : String) ≠ "abcdef" := by
  constructor
  · rfl
  · decide

/-- Password-change request payload, from `UserPasswordUpdateDto` in
`src/dtos.rs`. -/
structure UserPasswordUpdateDto where
  new_password : String
  new_password_confirm : String
  old_password : String
deriving Repr, DecidableEq

/-- Validation of `UserPasswordUpdateDto`, from its validator-derive
attributes: new_password length min 6; new_password_confirm length min 6 and
must match new_password; old_password length min 6. -/
def UserPasswordUpdateDto.validate (d : UserPasswordUpdateDto) :
    List FieldError :=
  (if d.new_password.length < 6 then
    [⟨"new_password", "new password must be at least 6 characters"⟩] else []) ++
  (if d.new_password_confirm.length < 6 then
    [⟨"new_password_confirm",
      "new password confirm must be at least 6 characters"⟩] else []) ++
  (if d.new_password_confirm = d.new_password then []
   else [⟨"new_password_confirm", "new passwords do not match"⟩]) ++
  (if d.old_password.length < 6 then
    [⟨"old_password", "Old password must be at least 6 characters"⟩] else [])

/-- Claim C3: validation of a `UserPasswordUpdateDto` succeeds exactly when
new_password has length at least 6, new_password_confirm has length at
least 6 and equals new_password, and old_password has length at least 6;
the old_password rule is a pure length check on the request payload (the
validate function sees no stored hash). -/
theorem userPasswordUpdateDto_validate_iff (d : UserPasswordUpdateDto) :
    d.validate = [] ↔
      (6 ≤ d.new_password.length ∧ 6 ≤ d.new_password_confirm.length ∧
       d.new_password_confirm = d.new_password ∧ 6 ≤ d.old_password.length) := by
  unfold UserPasswordUpdateDto.validate
  split_ifs with h1 h2 h3 h4 <;> simp_all
  all_goals omega

/-- Paged-listing query payload, from `RequestQueryDto` in `src/dtos.rs`;
both fields are optional (Rust `Option<usize>`, embedded as `Option Nat`). -/
structure RequestQueryDto where
  page : Option Nat
  limit : Option Nat
deriving Repr, DecidableEq

/-- Validation of `RequestQueryDto`, from its validator-derive attributes:
page in range min 1, limit in range min 1 max 50; a range rule on an
optional field accepts an absent value, and emits the default "range" code
when violated. -/
def RequestQueryDto.validate (d : RequestQueryDto) : List FieldError :=
  (match d.page with
   | none => []
   | some p => if p < 1 then [⟨"page", "range"⟩] else []) ++
  (match d.limit with
   | none => []
   | some l => if l < 1 ∨ 50 < l then [⟨"limit", "range"⟩] else [])

/-- Claim C5: validation of a `RequestQueryDto` succeeds if and only if
page, when present, is at least 1 and limit, when present, is between 1 and
50 inclusive; absence of either optional field is valid. -/
theorem requestQueryDto_validate_iff (d : RequestQueryDto) :
    d.validate = [] ↔
      ((∀ p, d.page = some p → 1 ≤ p) ∧
       (∀ l, d.limit = some l → 1 ≤ l ∧ l ≤ 50)) := by
  unfold RequestQueryDto.validate
  rcases hp : d.page with _ | p <;> rcases hl : d.limit with _ | l <;>
    simp_all <;> omega

/-- User role, from the closed `UserRole` enumeration in `src/models.rs`. -/
inductive UserRole where
  | Admin
  | User
deriving Repr, DecidableEq

/-- Role-to-string mapping, from `UserRole::to_str` in `src/models.rs`:
the canonical lowercase text stored in the database. -/
def UserRole.to_str : UserRole → String
  | UserRole.Admin => "admin"
  | UserRole.User => "user"

/-- A custom validator error, from `validator::ValidationError`: carries the
error code passed to `ValidationError::new`. -/
structure ValidationError where
  code : String
deriving Repr, DecidableEq

/-- Role membership check, from `validate_user_role` in `src/dtos.rs`:
Admin and User are accepted; any other value would be rejected with the
"invalid_role" code (the rejection arm is unreachable at this closed type,
kept as the source keeps its wildcard arm). -/
def validate_user_role (role : UserRole) : Except ValidationError Unit :=
  if role = UserRole.Admin ∨ role = UserRole.User then Except.ok ()
  else Except.error ⟨"invalid_role"⟩

/-- Role-update request payload, from `RoleUpdateDto` in `src/dtos.rs`. -/
structure RoleUpdateDto where
  role : UserRole
deriving Repr, DecidableEq

/-- Validation of `RoleUpdateDto`: runs the custom `validate_user_role`
function on the role field and records its error code on failure. -/
def RoleUpdateDto.validate (d : RoleUpdateDto) : List FieldError :=
  match validate_user_role d.role with
  | Except.ok _ => []
  | Except.error e => [⟨"role", e.code⟩]

/-- Claim C4: every `RoleUpdateDto` whose role is Admin or User passes
validation, and at this closed role type every value IS Admin or User, so
the distinct "invalid_role" rejection arm guards only against out-of-range
values that the type already excludes. -/
theorem roleUpdateDto_validate_closed (d : RoleUpdateDto) :
    RoleUpdateDto.validate d = [] ∧
    validate_user_role d.role = Except.ok () ∧
    (d.role = UserRole.Admin ∨ d.role = UserRole.User) := by
  rcases d with ⟨r⟩
  cases r <;> simp [RoleUpdateDto.validate, validate_user_role]

/-- Domain error kind, from the closed `ErrorMessage` enumeration in
`src/error.rs`; `ExceededMaxPasswordLength` carries the offending length
(Rust `usize`, embedded as `Nat`). -/
inductive ErrorMessage where
  | EmptyPassword
  | ExceededMaxPasswordLength (length : Nat)
  | HashingError
  | InvalidToken
  | ServerError
  | WrongCredentials
  | EmailExist
  | UserNoLongerExist
  | TokenNotProvided
  | PermissionDenied
  | UserNotAuthenticated
deriving Repr, DecidableEq

/-- Error-to-message mapping, from `ErrorMessage::to_str` in `src/error.rs`
(message texts reproduced exactly, including the source's misspellings
"Pssword" and "hasing"). -/
def ErrorMessage.to_str : ErrorMessage → String
  | ErrorMessage.EmptyPassword => "Password is required"
  | ErrorMessage.ExceededMaxPasswordLength length =>
      "Pssword must be at most " ++ toString length ++ " characters long"
  | ErrorMessage.HashingError => "Error occurred while hasing password"
  | ErrorMessage.InvalidToken => "Invalid token"
  | ErrorMessage.ServerError => "Internal server error"
  | ErrorMessage.WrongCredentials => "Wrong credentials"
  | ErrorMessage.EmailExist => "Email already exists"
  | ErrorMessage.UserNoLongerExist => "User no longer exists"
  | ErrorMessage.TokenNotProvided => "Token not provided"
  | ErrorMessage.PermissionDenied => "Permission denied"
  | ErrorMessage.UserNotAuthenticated => "User not authenticated"

/-- Claim C6: the error taxonomy is the closed eleven-kind set, the message
of each kind is a fixed text depending only on the kind, and the message of
`ExceededMaxPasswordLength n` carries the offending length n. -/
theorem errorMessage_taxonomy_messages :
    (∀ e : ErrorMessage,
      e = ErrorMessage.EmptyPassword ∨
      (∃ n, e = ErrorMessage.ExceededMaxPasswordLength n) ∨
      e = ErrorMessage.HashingError ∨ e = ErrorMessage.InvalidToken ∨
      e = ErrorMessage.ServerError ∨ e = ErrorMessage.WrongCredentials ∨
      e = ErrorMessage.EmailExist ∨ e = ErrorMessage.UserNoLongerExist ∨
      e = ErrorMessage.TokenNotProvided ∨ e = ErrorMessage.PermissionDenied ∨
      e = ErrorMessage.UserNotAuthenticated) ∧
    ErrorMessage.to_str ErrorMessage.EmptyPassword = "Password is required" ∧
    (∀ n, ErrorMessage.to_str (ErrorMessage.ExceededMaxPasswordLength n) =
      "Pssword must be at most " ++ toString n ++ " characters long") ∧
    ErrorMessage.to_str ErrorMessage.HashingError =
      "Error occurred while hasing password" ∧
    ErrorMessage.to_str ErrorMessage.InvalidToken = "Invalid token" ∧
    ErrorMessage.to_str ErrorMessage.ServerError = "Internal server error" ∧
    ErrorMessage.to_str ErrorMessage.WrongCredentials = "Wrong credentials" ∧
    ErrorMessage.to_str ErrorMessage.EmailExist = "Email already exists" ∧
    ErrorMessage.to_str ErrorMessage.UserNoLongerExist =
      "User no longer exists" ∧
    ErrorMessage.to_str ErrorMessage.TokenNotProvided = "Token not provided" ∧
    ErrorMessage.to_str ErrorMessage.PermissionDenied = "Permission denied" ∧
    ErrorMessage.to_str ErrorMessage.UserNotAuthenticated =
      "User not authenticated" := by
  refine ⟨fun e => ?_, rfl, fun n => rfl, rfl, rfl, rfl, rfl, rfl, rfl,
    rfl, rfl, rfl⟩
  cases e <;> simp

/-- Claim C7: the role-to-string mapping sends Admin to "admin" and User to
"user" and is injective, so the closed enumeration and its stored lowercase
texts are in bijection. -/
theorem userRole_to_str_bijective :
    UserRole.to_str UserRole.Admin = "admin" ∧
    UserRole.to_str UserRole.User = "user" ∧
    Function.Injective UserRole.to_str := by
  refine ⟨rfl, rfl, fun a b h => ?_⟩
  cases a <;> cases b <;> simp_all [UserRole.to_str]

/-- Opaque unique identifier (Rust `uuid::Uuid`); its `to_string` rendering
is modelled by the string itself. -/
abbrev Uuid := String

/-- Absolute UTC timestamp (Rust `DateTime<Utc>`), embedded as an integer
instant. -/
abbrev DateTime := Int

/-- Durable identity record, from the `User` struct in `src/models.rs`;
optional columns keep their `Option` type. -/
structure User where
  id : Uuid
  name : String
  email : String
  password : String
  role : UserRole
  verified : Bool
  verification_token : Option String
  token_expires_at : Option DateTime
  created_at : Option DateTime
  updated_at : Option DateTime
deriving Repr, DecidableEq

/-- User-facing projection of an account, from `FilterUserDto` in
`src/dtos.rs`: id, name, email, role text, verified flag and the two
timestamps — no password field. -/
structure FilterUserDto where
  id : String
  name : String
  email : String
  role : String
  verified : Bool
  created_at : DateTime
  updated_at : DateTime
deriving Repr, DecidableEq

/-- Conversion of a `User` into its user-facing DTO, from
`FilterUserDto::filter_user` in `src/dtos.rs`.  The source unwraps
`created_at` and `updated_at`; the panic on an absent timestamp is embedded
as `none`, so the conversion is defined exactly when both are present. -/
def FilterUserDto.filter_user (user : User) : Option FilterUserDto :=
  match user.created_at, user.updated_at with
  | some c, some u =>
      some { id := user.id, name := user.name, email := user.email,
             verified := user.verified, role := UserRole.to_str user.role,
             created_at := c, updated_at := u }
  | _, _ => none

/-- Claim C9: `filter_user` yields a result exactly when both the
created_at and the updated_at timestamps of the user are present; if either
is absent the unwrap branch is reached and the conversion has no result. -/
theorem filter_user_defined_iff_timestamps (u : User) :
    (FilterUserDto.filter_user u).isSome = true ↔
      (u.created_at.isSome = true ∧ u.updated_at.isSome = true) := by
  unfold FilterUserDto.filter_user
  rcases u.created_at with _ | c <;> rcases u.updated_at with _ | d <;> simp

/-- Claim C10: two users that agree on every field except possibly the
password are mapped by `filter_user` to identical DTOs — no DTO field
depends on the stored password. -/
theorem filter_user_password_noninterference (u1 u2 : User)
    (h : u1.id = u2.id ∧ u1.name = u2.name ∧ u1.email = u2.email ∧
         u1.role = u2.role ∧ u1.verified = u2.verified ∧
         u1.verification_token = u2.verification_token ∧
         u1.token_expires_at = u2.token_expires_at ∧
         u1.created_at = u2.created_at ∧ u1.updated_at = u2.updated_at) :
    FilterUserDto.filter_user u1 = FilterUserDto.filter_user u2 := by
  obtain ⟨h1, h2, h3, h4, h5, h6, h7, h8, h9⟩ := h
  unfold FilterUserDto.filter_user
  rw [h1, h2, h3, h4, h5, h8, h9]

/-- A concrete account used to instantiate hypotheses at explicit inputs. -/
def sampleUser : User :=
  { id := "00000000-0000-0000-0000-000000000001", name := "Ann",
    email := "ann@x.com", password := "hash-of-secret1",
    role := UserRole.User, verified := false, verification_token := none,
    token_expires_at := none, created_at := some 0, updated_at := some 0 }

/-- Witness for claim C10 at explicit inputs: `sampleUser` and the same
record with another password project to the same DTO. -/
theorem filter_user_password_noninterference_witness :
    FilterUserDto.filter_user sampleUser =
      FilterUserDto.filter_user
        { sampleUser with password := "another-hash" } :=
  filter_user_password_noninterference sampleUser
    { sampleUser with password := "another-hash" }
    ⟨rfl, rfl, rfl, rfl, rfl, rfl, rfl, rfl, rfl⟩

/-- Modelled from the spec: the Login transition of the Account State
Machine (service/handler code not present under src).  "Looks up Account by
email; fails WrongCredentials if absent OR if verify(password, stored_hash)
is false (same error in both cases)"; on success a session token is issued
(its contents are irrelevant here, a unit stands for the success payload).
The storage lookup and the hash verifier are the external collaborators of
spec section 6, passed as functions. -/
def login (find_account_by_email : String → Option User)
    (verify : String → String → Bool) (email password : String) :
    Except ErrorMessage Unit :=
  match find_account_by_email email with
  | none => Except.error ErrorMessage.WrongCredentials
  | some u =>
      if verify password u.password then Except.ok ()
      else Except.error ErrorMessage.WrongCredentials

/-- The user-facing error payload of a login outcome: the boundary maps an
error kind to its fixed message text via `ErrorMessage.to_str`. -/
def loginErrorPayload (r : Except ErrorMessage Unit) : Option String :=
  match r with
  | Except.error e => some (ErrorMessage.to_str e)
  | Except.ok _ => none

/-- Claim C8: a login failing because the email is unknown and a login
failing because the password is wrong for an existing account produce
byte-identical error payloads — the single fixed WrongCredentials message —
revealing nothing about whether the account exists. -/
theorem wrongCredentials_payload_indistinguishable
    (find : String → Option User) (verify : String → String → Bool)
    (e1 p1 e2 p2 : String) (u : User)
    (h1 : find e1 = none) (h2 : find e2 = some u)
    (h3 : verify p2 u.password = false) :
    loginErrorPayload (login find verify e1 p1) =
      loginErrorPayload (login find verify e2 p2) ∧
    loginErrorPayload (login find verify e1 p1) =
      some "Wrong credentials" := by
  unfold login loginErrorPayload
  rw [h1, h2]
  simp [h3, ErrorMessage.to_str]

/-- Witness for claim C8 at explicit inputs: a store holding only
`sampleUser` under "ann@x.com", a verifier rejecting everything; login with
the unknown email "bob@x.com" and login with the known email but wrong
password both surface the payload "Wrong credentials". -/
theorem wrongCredentials_payload_indistinguishable_witness :
    loginErrorPayload
      (login (fun e => if e = "ann@x.com" then some sampleUser else none)
        (fun _ _ => false) "bob@x.com" "whatever") =
      loginErrorPayload
        (login (fun e => if e = "ann@x.com" then some sampleUser else none)
          (fun _ _ => false) "ann@x.com" "wrong") ∧
    loginErrorPayload
      (login (fun e => if e = "ann@x.com" then some sampleUser else none)
        (fun _ _ => false) "bob@x.com" "whatever") =
      some "Wrong credentials" :=
  wrongCredentials_payload_indistinguishable
    (fun e => if e = "ann@x.com" then some sampleUser else none)
    (fun _ _ => false) "bob@x.com" "whatever" "ann@x.com" "wrong" sampleUser
    (by simp) (by simp) rfl

end AxumAuth
